import Mathlib

/-!
Shallow embedding of the client-side theme state manager of a static blog.

The code lives as inline scripts in two markdown posts:
`src/content/blog/dark-mode-implementation.md` (the head init script, the
storage event listener and the toggle click handler) and
`src/content/blog/astro-blog-guide.md` (a second version of the head
script's `getThemePreference`).

Modelling choices, all taken from the JavaScript semantics of the source:
* the persistent store is visible to the scripts only through the single
  key `theme`; a `Store` value records whether the `localStorage` binding
  is undefined, available with given contents for that key (`none` = key
  absent, as `getItem` returns `null`), or throwing on access;
* JavaScript truthiness of a `getItem` result: `null` and the empty
  string are falsy, every other string is truthy;
* fallible script fragments return `Except Unit`, an `error` being an
  uncaught JavaScript exception;
* the document is modelled by the state the scripts touch: presence of
  the `dark` class on the root element and the `hidden` class on the two
  toggle icons.
-/

set_option autoImplicit false

namespace ThemeManager

/-- States of the browser-local persistent store as the scripts can
observe it: the `localStorage` binding undefined, available with the
given contents of the `theme` key (`none` when the key is absent), or
throwing on any access (restricted context / quota). -/
inductive Store where
  | undef : Store
  | avail : Option String → Store
  | throwing : Store
deriving DecidableEq

/-- JavaScript truthiness of a `localStorage.getItem` result: `null`
(here `none`) and the empty string are falsy, any other string truthy. -/
def truthy : Option String → Bool
  | none => false
  | some s => !s.isEmpty

/-- The ternary on the OS color-scheme query in the source:
`window.matchMedia('(prefers-color-scheme: dark)').matches ? 'dark' : 'light'`. -/
def osTheme (osDark : Bool) : String :=
  if osDark then "dark" else "light"

/-- Embedding of `getThemePreference` from
`dark-mode-implementation.md` lines 57–66:
`if (typeof localStorage !== 'undefined' && localStorage.getItem('theme'))
  return localStorage.getItem('theme');`
else the OS-signal ternary. An undefined binding takes the OS branch via
the `typeof` guard; a throwing store propagates its exception (there is
no `try`/`catch` in the source); an available store returns the stored
string verbatim when truthy, else the OS branch. -/
def getThemePreference : Store → Bool → Except Unit (Option String)
  | Store.undef, osDark => Except.ok (some (osTheme osDark))
  | Store.throwing, _ => Except.error ()
  | Store.avail v, osDark =>
      if truthy v then Except.ok v else Except.ok (some (osTheme osDark))

/-- Embedding of the `getThemePreference` variant from
`astro-blog-guide.md` lines 204–217:
`if (typeof localStorage !== 'undefined') return localStorage.getItem('theme');`
else the OS-signal ternary. When the store is available this version
returns the raw `getItem` result — possibly `null` (`none`). -/
def getThemePreference_guide : Store → Bool → Except Unit (Option String)
  | Store.undef, osDark => Except.ok (some (osTheme osDark))
  | Store.throwing, _ => Except.error ()
  | Store.avail v, _ => Except.ok v

/-- Embedding of `getCurrentTheme` from the toggle component
(`dark-mode-implementation.md` lines 120–123):
`localStorage.getItem('theme') || (matchMedia ... ? 'dark' : 'light')`.
No `typeof` guard here: an undefined or throwing binding raises. -/
def getCurrentTheme : Store → Bool → Except Unit String
  | Store.avail v, osDark =>
      Except.ok (if truthy v then v.getD "" else osTheme osDark)
  | _, _ => Except.error ()

/-- Document and icon state the scripts mutate: presence of the `dark`
class on the root element, and the `hidden` class on the moon and sun
icons of the toggle button. -/
structure View where
  darkClass : Bool
  moonHidden : Bool
  sunHidden : Bool
deriving DecidableEq

/-- Embedding of
`document.documentElement.classList[isDark ? 'add' : 'remove']('dark')`:
the marker ends up exactly at `isDark`, whatever it was before. -/
def classListDark (isDark : Bool) (w : View) : View :=
  { w with darkClass := isDark }

/-- The `applyTheme` operation of the spec: the classList line applied to
the string computed for a theme, marker present exactly for `'dark'`. -/
def applyThemeClass (theme : String) (w : View) : View :=
  classListDark (theme == "dark") w

/-- Embedding of `updateIcons` (`dark-mode-implementation.md` lines
125–133): moon shown and sun hidden for `'dark'`, the reverse otherwise. -/
def updateIcons (theme : String) (w : View) : View :=
  if theme == "dark" then
    { w with moonHidden := false, sunHidden := true }
  else
    { w with moonHidden := true, sunHidden := false }

/-- Embedding of the inline head script of
`dark-mode-implementation.md` lines 56–71: resolve the preference, then
set the root marker from `getThemePreference() === 'dark'`. The script
performs no store write, so the store is returned unchanged. -/
def inlineInitScript (st : Store) (osDark : Bool) (w : View) :
    Except Unit (Store × View) :=
  match getThemePreference st osDark with
  | Except.error e => Except.error e
  | Except.ok pref => Except.ok (st, classListDark (pref == some "dark") w)

/-- Embedding of the storage event listener
(`dark-mode-implementation.md` lines 92–97): on `e.key === 'theme'`, set
the root marker from `e.newValue === 'dark'`; otherwise do nothing. The
handler touches no store state. -/
def storageListener (st : Store) (key : String) (newValue : Option String)
    (w : View) : Store × View :=
  if key == "theme" then (st, classListDark (newValue == some "dark") w)
  else (st, w)

/-- The ternary of the toggle handler:
`currentTheme === 'dark' ? 'light' : 'dark'`. -/
def oppositeTheme (t : String) : String :=
  if t == "dark" then "light" else "dark"

/-- Embedding of the toggle click listener
(`dark-mode-implementation.md` lines 139–151): read `getCurrentTheme`,
flip it, set the root marker, `localStorage.setItem('theme', newTheme)`,
update the icons. On a store whose read throws the exception propagates
before any mutation; `setItem` on an available store succeeds and leaves
the key holding the new theme. -/
def toggleClick (st : Store) (osDark : Bool) (w : View) :
    Except Unit (Store × View) :=
  match getCurrentTheme st osDark with
  | Except.error e => Except.error e
  | Except.ok currentTheme =>
      let newTheme := oppositeTheme currentTheme
      let w1 := applyThemeClass newTheme w
      match st with
      | Store.avail _ =>
          Except.ok (Store.avail (some newTheme), updateIcons newTheme w1)
      | _ => Except.error ()

/-- Follows the spec's words (data-model derivation of EffectiveTheme
from a notified value, for comparison with the storage listener): the
notified value itself when one is present, else `dark` exactly when the
OS dark-scheme signal is active, defaulting to `light`. -/
def specEffectiveFromNotified (notified : Option String) (osDark : Bool) :
    String :=
  match notified with
  | some s => s
  | none => osTheme osDark

/-! ### Helper lemmas -/

lemma truthy_some_ne_empty (t : String) (ht : t ≠ "") :
    truthy (some t) = true := by
  have hfalse : t.isEmpty = false := by
    cases h : t.isEmpty
    · rfl
    · exact absurd ((String.isEmpty_iff t).mp h) ht
  simp [truthy, hfalse]

lemma getThemePreference_avail_some (t : String) (ht : t ≠ "") (os : Bool) :
    getThemePreference (Store.avail (some t)) os = Except.ok (some t) := by
  simp [getThemePreference, truthy_some_ne_empty t ht]

lemma toggleClick_avail (v : Option String) (os : Bool) (w : View) :
    toggleClick (Store.avail v) os w =
      Except.ok
        (Store.avail
            (some (oppositeTheme (if truthy v then v.getD "" else osTheme os))),
         updateIcons (oppositeTheme (if truthy v then v.getD "" else osTheme os))
           (applyThemeClass
              (oppositeTheme (if truthy v then v.getD "" else osTheme os)) w)) :=
  rfl

lemma oppositeTheme_cases (t : String) :
    oppositeTheme t = "dark" ∨ oppositeTheme t = "light" := by
  unfold oppositeTheme
  cases h : (t == "dark") <;> simp [h]

lemma updateIcons_darkClass (t : String) (w : View) :
    (updateIcons t w).darkClass = w.darkClass := by
  unfold updateIcons
  cases h : (t == "dark") <;> simp [h]

/-! ### Claim theorems -/

/-- C1, counterexample: with the store available and the theme key
holding the string `"banana"`, `getThemePreference` returns that string
verbatim, which is neither `'dark'` nor `'light'` — the claim that the
result is always exactly one of the two fails for an arbitrary stored
string. -/
theorem c1_counterexample_foreign_string :
    getThemePreference (Store.avail (some "banana")) false =
      Except.ok (some "banana") ∧
    ("banana" : String) ≠ "dark" ∧ ("banana" : String) ≠ "light" := by
  refine ⟨rfl, by decide, by decide⟩

/-- C1 amended: whenever the store is undefined, or available with the
theme key absent, empty, or holding `'dark'`/`'light'`, the resolved
value is exactly `'dark'` or `'light'`; and for every store state and OS
signal the function never produces a null (`none`) value. -/
theorem c1_resolution_total_amended :
    (∀ (st : Store) (os : Bool),
        (st = Store.undef ∨ st = Store.avail none ∨
            st = Store.avail (some "") ∨ st = Store.avail (some "dark") ∨
            st = Store.avail (some "light")) →
        getThemePreference st os = Except.ok (some "dark") ∨
          getThemePreference st os = Except.ok (some "light")) ∧
    (∀ (st : Store) (os : Bool), getThemePreference st os ≠ Except.ok none) := by
  constructor
  · rintro st os (rfl | rfl | rfl | rfl | rfl) <;> cases os <;>
      first
        | exact Or.inl rfl
        | exact Or.inr rfl
  · intro st os h
    cases st with
    | undef => simp [getThemePreference] at h
    | throwing => simp [getThemePreference] at h
    | avail v =>
        cases hv : truthy v with
        | false => simp [getThemePreference, hv] at h
        | true =>
            cases v with
            | none => simp [truthy] at hv
            | some s => simp [getThemePreference, hv] at h

/-- C1 witness: the amended theorem applied at the undefined store with
the OS dark signal active, and at a store holding `'dark'`. -/
theorem c1_resolution_total_witness :
    (getThemePreference Store.undef true = Except.ok (some "dark") ∨
      getThemePreference Store.undef true = Except.ok (some "light")) ∧
    getThemePreference (Store.avail (some "dark")) false ≠ Except.ok none :=
  ⟨c1_resolution_total_amended.1 Store.undef true (Or.inl rfl),
   c1_resolution_total_amended.2 (Store.avail (some "dark")) false⟩

/-- C5: a persisted ThemePreference (`'dark'` or `'light'`) is returned
verbatim regardless of the OS signal, and when the key is absent the
result is `'dark'` exactly when the OS dark-scheme signal is active,
else `'light'`. -/
theorem c5_resolution_behavior :
    (∀ (t : String) (os : Bool), (t = "dark" ∨ t = "light") →
        getThemePreference (Store.avail (some t)) os = Except.ok (some t)) ∧
    (∀ os : Bool,
        getThemePreference (Store.avail none) os =
          Except.ok (some (if os then "dark" else "light"))) := by
  constructor
  · rintro t os (rfl | rfl) <;>
      exact getThemePreference_avail_some _ (by decide) os
  · intro os
    cases os <;> simp [getThemePreference, truthy, osTheme]

/-- C5 witness: the theorem at store `"light"` with the OS signal dark
(the explicit preference wins), and at the empty store with the OS
signal dark. -/
theorem c5_resolution_behavior_witness :
    getThemePreference (Store.avail (some "light")) true =
      Except.ok (some "light") ∧
    getThemePreference (Store.avail none) true = Except.ok (some "dark") :=
  ⟨c5_resolution_behavior.1 "light" true (Or.inr rfl),
   c5_resolution_behavior.2 true⟩

/-- C8: `applyTheme` is idempotent — for every theme string and every
starting document state, applying it twice leaves the document marker
state identical to applying it once. -/
theorem c8_applyTheme_idempotent (t : String) (w : View) :
    applyThemeClass t (applyThemeClass t w) = applyThemeClass t w :=
  rfl

/-- C3, counterexample: with a store whose read throws and the OS signal
light, `getThemePreference` propagates the exception instead of
returning `'light'` — the source has no `try`/`catch`, so a throwing
read is not recovered. -/
theorem c3_counterexample_throwing_read :
    getThemePreference Store.throwing false = Except.error () ∧
    getThemePreference Store.throwing false ≠ Except.ok (some "light") := by
  refine ⟨rfl, ?_⟩
  intro h
  exact Except.noConfusion h

/-- C3 amended: the one store failure the code does guard (via the
`typeof localStorage !== 'undefined'` check) is an undefined binding:
there the read falls back to the OS-signal branch with no exception, and
with the OS signal light the result is `'light'`. A store whose read
itself throws propagates the exception. -/
theorem c3_undef_store_fallback (os : Bool) :
    getThemePreference Store.undef os = Except.ok (some (osTheme os)) ∧
    getThemePreference Store.undef false = Except.ok (some "light") :=
  ⟨rfl, rfl⟩

/-- C6, counterexample: for a store-change notification with key
`'theme'` and no value (the key was removed elsewhere) while the OS
dark-scheme signal is active, the spec's derivation yields `'dark'` but
the listener clears the marker — it tests `e.newValue === 'dark'`
literally and never consults the OS signal. -/
theorem c6_counterexample_removed_key :
    specEffectiveFromNotified none true = "dark" ∧
    ((storageListener (Store.avail none) "theme" none
          (View.mk true false true)).2).darkClass = false ∧
    ((storageListener (Store.avail none) "theme" none
          (View.mk true false true)).2).darkClass ≠
      (specEffectiveFromNotified none true == "dark") := by
  refine ⟨rfl, rfl, by decide⟩

/-- C6 amended: for every notification with key `'theme'`, the listener
sets the document marker present exactly when the notified value is the
literal string `'dark'`; an absent or different value clears the marker,
independently of the store contents and of the OS signal. -/
theorem c6_listener_literal_dark (st : Store) (nv : Option String) (w : View) :
    ((storageListener st "theme" nv w).2).darkClass = (nv == some "dark") := by
  simp [storageListener, classListDark]

/-- C10, counterexample: with the store available and the theme key
absent, under the OS dark signal the `dark-mode-implementation.md`
version resolves to `'dark'` while the `astro-blog-guide.md` version
returns the raw `null` — the two published functions are not
extensionally equal. -/
theorem c10_counterexample_key_absent :
    getThemePreference (Store.avail none) true = Except.ok (some "dark") ∧
    getThemePreference_guide (Store.avail none) true = Except.ok none ∧
    getThemePreference (Store.avail none) true ≠
      getThemePreference_guide (Store.avail none) true := by
  refine ⟨rfl, rfl, ?_⟩
  intro h
  rw [show getThemePreference (Store.avail none) true =
        Except.ok (some "dark") from rfl,
      show getThemePreference_guide (Store.avail none) true =
        Except.ok none from rfl] at h
  simp at h

/-- C10 amended: the two published versions agree whenever the store is
undefined, throwing, or holds a nonempty string under the theme key;
they differ only when the store is available with the key absent or
empty, where the first falls back to the OS signal and the second
returns the raw `getItem` result. -/
theorem c10_agreement_amended (os : Bool) (s : String) (hs : s ≠ "") :
    getThemePreference Store.undef os = getThemePreference_guide Store.undef os ∧
    getThemePreference (Store.avail (some s)) os =
      getThemePreference_guide (Store.avail (some s)) os ∧
    getThemePreference Store.throwing os =
      getThemePreference_guide Store.throwing os := by
  refine ⟨rfl, ?_, rfl⟩
  rw [getThemePreference_avail_some s hs os]
  rfl

/-- C10 witness: the amended agreement at the OS dark signal with the
stored string `'light'`. -/
theorem c10_agreement_witness :
    getThemePreference Store.undef true = getThemePreference_guide Store.undef true ∧
    getThemePreference (Store.avail (some "light")) true =
      getThemePreference_guide (Store.avail (some "light")) true ∧
    getThemePreference Store.throwing true =
      getThemePreference_guide Store.throwing true :=
  c10_agreement_amended true "light" (by decide)

lemma oppositeTheme_opposite (T : String) (hT : T = "dark" ∨ T = "light") :
    oppositeTheme (oppositeTheme T) = T := by
  rcases hT with rfl | rfl <;> rfl

lemma toggle_then_resolve (v : Option String) (os : Bool) (w : View) (T : String)
    (hT : T = "dark" ∨ T = "light")
    (hcur : (if truthy v then v.getD "" else osTheme os) = T) :
    toggleClick (Store.avail v) os w =
      Except.ok (Store.avail (some (oppositeTheme T)),
        updateIcons (oppositeTheme T) (applyThemeClass (oppositeTheme T) w)) ∧
    getThemePreference (Store.avail (some (oppositeTheme T))) os =
      Except.ok (some (oppositeTheme T)) := by
  constructor
  · rw [toggleClick_avail, hcur]
  · rcases hT with rfl | rfl
    · exact getThemePreference_avail_some _ (by decide) os
    · exact getThemePreference_avail_some _ (by decide) os

/-- C2: from any available store contents and OS signal resolving to an
EffectiveTheme `T`, one toggle click followed by a fresh resolution
yields the opposite of `T`, and a second toggle-then-resolve pair
returns the resolved theme to `T`. -/
theorem c2_toggle_involution (v : Option String) (os : Bool) (w : View)
    (T : String)
    (hres : getThemePreference (Store.avail v) os = Except.ok (some T))
    (hT : T = "dark" ∨ T = "light") :
    ∃ st1 w1 st2 w2,
      toggleClick (Store.avail v) os w = Except.ok (st1, w1) ∧
      getThemePreference st1 os = Except.ok (some (oppositeTheme T)) ∧
      toggleClick st1 os w1 = Except.ok (st2, w2) ∧
      getThemePreference st2 os = Except.ok (some T) := by
  have hcur : (if truthy v then v.getD "" else osTheme os) = T := by
    cases hv : truthy v with
    | true =>
        cases v with
        | none => simp [truthy] at hv
        | some s =>
            simp [getThemePreference, hv] at hres
            simp [hv, hres]
    | false =>
        simp [getThemePreference, hv] at hres
        simp [hv, hres]
  obtain ⟨h1, h2⟩ := toggle_then_resolve v os w T hT hcur
  have hT2 := oppositeTheme_cases T
  have hcur2 : (if truthy (some (oppositeTheme T))
        then (some (oppositeTheme T)).getD "" else osTheme os) =
      oppositeTheme T := by
    rcases hT with rfl | rfl <;> rfl
  obtain ⟨h3, h4⟩ := toggle_then_resolve (some (oppositeTheme T)) os
    (updateIcons (oppositeTheme T) (applyThemeClass (oppositeTheme T) w))
    (oppositeTheme T) hT2 hcur2
  rw [oppositeTheme_opposite T hT] at h3 h4
  exact ⟨_, _, _, _, h1, h2, h3, h4⟩

/-- C2 witness: the involution at the empty store under the OS dark
signal, where the starting EffectiveTheme is `'dark'`. -/
theorem c2_toggle_involution_witness :
    ∃ st1 w1 st2 w2,
      toggleClick (Store.avail none) true (View.mk false true false) =
        Except.ok (st1, w1) ∧
      getThemePreference st1 true = Except.ok (some (oppositeTheme "dark")) ∧
      toggleClick st1 true w1 = Except.ok (st2, w2) ∧
      getThemePreference st2 true = Except.ok (some "dark") :=
  c2_toggle_involution none true (View.mk false true false) "dark" rfl
    (Or.inl rfl)

/-- C4: after view A's toggle click writes value `t` to the shared
store, delivering the store-change notification (key `'theme'`, new
value `t`) to view B's storage listener leaves B's document marker equal
to A's. -/
theorem c4_cross_tab_convergence (v : Option String) (os : Bool)
    (wA wB : View) (st' : Store) (wA' : View) (t : String)
    (h : toggleClick (Store.avail v) os wA = Except.ok (st', wA'))
    (hw : st' = Store.avail (some t)) :
    ((storageListener st' "theme" (some t) wB).2).darkClass =
      wA'.darkClass := by
  rw [toggleClick_avail] at h
  rw [Except.ok.injEq, Prod.mk.injEq] at h
  obtain ⟨hst, hwA⟩ := h
  rw [← hst] at hw
  have ht : oppositeTheme (if truthy v then v.getD "" else osTheme os) = t := by
    simpa using hw
  rw [← hst, ← hwA, ht, updateIcons_darkClass]
  simp [storageListener, classListDark, applyThemeClass]

/-- C4 witness: a toggle in view A starting from the empty store under
the OS light signal writes `'dark'`; delivering that notification to a
view B leaves both markers present. -/
theorem c4_cross_tab_convergence_witness :
    ((storageListener (Store.avail (some "dark")) "theme" (some "dark")
          (View.mk true false true)).2).darkClass =
      (View.mk true false true).darkClass :=
  c4_cross_tab_convergence none false (View.mk false true false)
    (View.mk true false true) (Store.avail (some "dark"))
    (View.mk true false true) "dark" rfl rfl

/-- C7: the inline init script and the storage listener leave the store
untouched, and every successful toggle click leaves the theme key
present, holding `'dark'` or `'light'` — the toggle is the sole writer
and nothing ever removes the key. -/
theorem c7_toggle_sole_writer :
    (∀ (st : Store) (os : Bool) (w : View) (r : Store × View),
        inlineInitScript st os w = Except.ok r → r.1 = st) ∧
    (∀ (st : Store) (k : String) (nv : Option String) (w : View),
        (storageListener st k nv w).1 = st) ∧
    (∀ (st : Store) (os : Bool) (w : View) (st' : Store) (w' : View),
        toggleClick st os w = Except.ok (st', w') →
        ∃ t, (t = "dark" ∨ t = "light") ∧ st' = Store.avail (some t)) := by
  refine ⟨?_, ?_, ?_⟩
  · intro st os w r h
    unfold inlineInitScript at h
    split at h
    · exact Except.noConfusion h
    · injection h with h'
      rw [← h']
  · intro st k nv w
    unfold storageListener
    cases hk : (k == "theme") <;> simp [hk]
  · intro st os w st' w' h
    cases st with
    | undef => exact Except.noConfusion h
    | throwing => exact Except.noConfusion h
    | avail v =>
        rw [toggleClick_avail] at h
        rw [Except.ok.injEq, Prod.mk.injEq] at h
        obtain ⟨hst, _⟩ := h
        exact ⟨_, oppositeTheme_cases _, hst.symm⟩

/-- C7 witness: the init script run on the undefined store under the OS
dark signal keeps the store, a `'light'` notification keeps a store
holding `'dark'`, and a toggle from the empty store leaves the key
holding a theme value. -/
theorem c7_toggle_sole_writer_witness :
    ((Store.undef : Store), View.mk true true false).1 = Store.undef ∧
    (storageListener (Store.avail (some "dark")) "theme" (some "light")
        (View.mk true false true)).1 = Store.avail (some "dark") ∧
    ∃ t, (t = "dark" ∨ t = "light") ∧
      Store.avail (some "dark") = Store.avail (some t) :=
  ⟨c7_toggle_sole_writer.1 Store.undef true (View.mk false true false)
      (Store.undef, View.mk true true false) rfl,
   c7_toggle_sole_writer.2.1 (Store.avail (some "dark")) "theme"
      (some "light") (View.mk true false true),
   c7_toggle_sole_writer.2.2 (Store.avail none) false
      (View.mk false true false) (Store.avail (some "dark"))
      (View.mk true false true) rfl⟩

end ThemeManager
